import Mathlib

/-!
Shallow embedding of `src/python/ai-wallet-reputation-nft`:
the reputation scorer (`src/analyzer.py`) and the badge-minting
orchestration (`src/contract_interaction.py`).

Machine arithmetic: Python's `int` is unbounded, so transaction counts are
`ℕ` (the spec restricts to non-negative inputs) and scores are `ℤ`.
Python's `/` on ints yields a float; the operands appearing in the scorer
are small enough that we model the arithmetic exactly over `ℚ`, and
Python's `round` (banker's rounding: round half to even) is modelled by
`pyRound` below.
-/

namespace WalletReputation

/-- Python's built-in `round` on an exact rational value: round to the
nearest integer, ties going to the even neighbour (banker's rounding). -/
def pyRound (q : ℚ) : ℤ :=
  let f : ℤ := ⌊q⌋
  if q - f < 1/2 then f
  else if 1/2 < q - f then f + 1
  else if 2 ∣ f then f else f + 1

/-- The four transaction-count thresholds `MIN_TX_COUNT_*` read from the
environment in `analyzer.py` (lines 52-55). -/
structure Thresholds where
  minExplorer : ℕ
  minContributor : ℕ
  minVeteran : ℕ
  minLegend : ℕ
deriving DecidableEq, Repr

/-- Default threshold values (`analyzer.py` lines 52-55): 10 / 50 / 200 / 1000. -/
def defaultThresholds : Thresholds :=
  { minExplorer := 10, minContributor := 50, minVeteran := 200, minLegend := 1000 }

/-- The five reputation categories (keys of `REPUTATION_LEVELS`, `analyzer.py`
lines 59-65). -/
inductive Category where
  | Newcomer
  | Explorer
  | Contributor
  | Veteran
  | Legend
deriving DecidableEq, Repr

/-- Tier index of a category, Newcomer lowest. Used to phrase "category is
monotonically non-decreasing in tier". -/
def Category.tier : Category → ℕ
  | .Newcomer => 0
  | .Explorer => 1
  | .Contributor => 2
  | .Veteran => 3
  | .Legend => 4

/-- `REPUTATION_LEVELS` (`analyzer.py` lines 59-65): base score per category. -/
def REPUTATION_LEVELS : Category → ℤ
  | .Newcomer => 10
  | .Explorer => 30
  | .Contributor => 60
  | .Veteran => 85
  | .Legend => 95

/-- Category assignment, the `if/elif` chain of
`simulate_ai_reputation_score` (`analyzer.py` lines 145-154). -/
def categorize (t : Thresholds) (txCount : ℕ) : Category :=
  if txCount < t.minExplorer then .Newcomer
  else if txCount < t.minContributor then .Explorer
  else if txCount < t.minVeteran then .Contributor
  else if txCount < t.minLegend then .Veteran
  else .Legend

/-- The in-category scaling and final clamp of `simulate_ai_reputation_score`
(`analyzer.py` lines 156-179): start from the category's base score, add the
rounded linear interpolation within the band, cap at the band maximum, and
clamp the result to [0,100]. -/
def scoreOf (t : Thresholds) (txCount : ℕ) : ℤ :=
  let category := categorize t txCount
  let score := REPUTATION_LEVELS category
  let score : ℤ :=
    match category with
    | .Newcomer =>
        min 19 (score + pyRound ((txCount : ℚ) / (t.minExplorer : ℚ) * 9))
    | .Explorer =>
        min 49 (score + pyRound (((txCount : ℚ) - (t.minExplorer : ℚ))
          / ((t.minContributor : ℚ) - (t.minExplorer : ℚ)) * 19))
    | .Contributor =>
        min 79 (score + pyRound (((txCount : ℚ) - (t.minContributor : ℚ))
          / ((t.minVeteran : ℚ) - (t.minContributor : ℚ)) * 19))
    | .Veteran =>
        min 94 (score + pyRound (((txCount : ℚ) - (t.minVeteran : ℚ))
          / ((t.minLegend : ℚ) - (t.minVeteran : ℚ)) * 9))
    | .Legend => score
  max 0 (min 100 score)

/-- Display name of a category, as interpolated into the user-facing
message and the LLM prompt. -/
def categoryName : Category → String
  | .Newcomer => "Newcomer"
  | .Explorer => "Explorer"
  | .Contributor => "Contributor"
  | .Veteran => "Veteran"
  | .Legend => "Legend"

/-- The message composition of `simulate_ai_reputation_score`
(`analyzer.py` lines 159-164): a sentence embedding the transaction count
and category name, with a suffix for the two extreme tiers. -/
def messageFor (category : Category) (txCount : ℕ) : String :=
  let name := categoryName category
  let message := s!"Based on {txCount} transactions, this address is categorized as a {name}."
  if category = .Newcomer then message ++ " Welcome to the chain!"
  else if category = .Legend then message ++ " A true DeFi degen!"
  else message

/-- One invocation of the OpenRouter chat-completion call made by
`generate_rationale_with_llm`: given the category, transaction count and
address it either returns the rationale text or raises (`.error`).
The configured `openai_client` is `Option` of such a call (it is `None`
when `OPENROUTER_API_KEY` is unset, `analyzer.py` lines 19-38). -/
def LLMCall : Type := Category → ℕ → String → Except String String

/-- `generate_rationale_with_llm` (`analyzer.py` lines 93-136): with no
client configured, return the fixed unavailability sentence; otherwise call
the client and return its stripped text, replacing any raised error with the
fixed fallback sentence. -/
def generate_rationale_with_llm (client : Option LLMCall)
    (category : Category) (txCount : ℕ) (address : String) : String :=
  match client with
  | none => "LLM rationale generation is currently unavailable."
  | some call =>
    match call category txCount address with
    | .ok rationale => rationale.trim
    | .error _ => "Could not generate AI rationale via OpenRouter at this time."

/-- The 4-tuple `(category, score, message, rationale)` returned by
`simulate_ai_reputation_score` (`analyzer.py` line 185). -/
structure ScoreResult where
  category : Category
  score : ℤ
  message : String
  rationale : String
deriving DecidableEq, Repr

/-- `simulate_ai_reputation_score` (`analyzer.py` lines 140-185): derive the
category from the thresholds, the scaled clamped score, the message, and the
best-effort LLM rationale. -/
def simulate_ai_reputation_score (t : Thresholds) (client : Option LLMCall)
    (txCount : ℕ) (address : String) : ScoreResult :=
  { category := categorize t txCount
    score := scoreOf t txCount
    message := messageFor (categorize t txCount) txCount
    rationale := generate_rationale_with_llm client (categorize t txCount) txCount address }

/-- The scaling step of `simulate_ai_reputation_score` with Python's failure
behaviour made explicit: each `round((a)/(b) * w)` raises `ZeroDivisionError`
when its denominator is zero (possible only under degenerate threshold
configurations); everything else in the function body is straight-line
arithmetic and string formatting that cannot raise. -/
def scoreOfE (t : Thresholds) (txCount : ℕ) : Except String ℤ :=
  let category := categorize t txCount
  let base := REPUTATION_LEVELS category
  match category with
  | .Newcomer =>
      if (t.minExplorer : ℚ) = 0 then .error "ZeroDivisionError"
      else .ok (max 0 (min 100 (min 19 (base +
        pyRound ((txCount : ℚ) / (t.minExplorer : ℚ) * 9)))))
  | .Explorer =>
      if (t.minContributor : ℚ) - (t.minExplorer : ℚ) = 0 then .error "ZeroDivisionError"
      else .ok (max 0 (min 100 (min 49 (base +
        pyRound (((txCount : ℚ) - (t.minExplorer : ℚ))
          / ((t.minContributor : ℚ) - (t.minExplorer : ℚ)) * 19)))))
  | .Contributor =>
      if (t.minVeteran : ℚ) - (t.minContributor : ℚ) = 0 then .error "ZeroDivisionError"
      else .ok (max 0 (min 100 (min 79 (base +
        pyRound (((txCount : ℚ) - (t.minContributor : ℚ))
          / ((t.minVeteran : ℚ) - (t.minContributor : ℚ)) * 19)))))
  | .Veteran =>
      if (t.minLegend : ℚ) - (t.minVeteran : ℚ) = 0 then .error "ZeroDivisionError"
      else .ok (max 0 (min 100 (min 94 (base +
        pyRound (((txCount : ℚ) - (t.minVeteran : ℚ))
          / ((t.minLegend : ℚ) - (t.minVeteran : ℚ)) * 9)))))
  | .Legend => .ok (max 0 (min 100 base))

/-- `simulate_ai_reputation_score` with the possible `ZeroDivisionError` of
the scaling step propagated instead of crashing the embedding. -/
def simulateE (t : Thresholds) (client : Option LLMCall)
    (txCount : ℕ) (address : String) : Except String ScoreResult :=
  match scoreOfE t txCount with
  | .error e => .error e
  | .ok score =>
    .ok { category := categorize t txCount
          score := score
          message := messageFor (categorize t txCount) txCount
          rationale := generate_rationale_with_llm client (categorize t txCount) txCount address }

/-! Embedding of the minting orchestration (`src/contract_interaction.py`).
The external collaborators (the `hasBadge` contract call, the Pinata pin,
the transaction submission and its receipt) are modelled as the outcomes the
environment supplies for this one request; the function consumes them in the
order the code performs the calls, and the returned trace records which
irreversible external actions were performed. -/

/-- External side effects `mint_reputation_badge` can perform after its
pre-checks: publishing the badge metadata to IPFS and submitting the
issuance transaction. -/
inductive MintEvent where
  | publishMetadata
  | submitTransaction
deriving DecidableEq, Repr

/-- The result dict of `mint_reputation_badge`
(keys `success`, `message`, `tx_hash`, optional `tokenId`). -/
structure MintResult where
  success : Bool
  message : String
  txHash : Option String
  tokenId : Option ℤ
deriving DecidableEq, Repr

/-- Outcomes of the external calls a single `mint_reputation_badge` request
makes, in program order. -/
structure MintEnv where
  /-- `PINATA_JWT` is configured (`contract_interaction.py` line 259). -/
  pinataConfigured : Bool
  /-- `Web3.to_checksum_address(recipient_address)` succeeds (line 263);
  when it raises `ValueError` the handler at line 353 reports an invalid
  recipient. -/
  recipientValid : Bool
  /-- Outcome of `contract.functions.hasBadge(recipient).call()`
  (line 158): a boolean, or a raised exception. -/
  hasBadgeCall : Except String Bool
  /-- Outcome of `_pin_json_to_ipfs` (lines 170-210): the IPFS hash, or
  `none` when the upload failed. -/
  pinResult : Option String
  /-- Outcome of signing and sending the transaction (lines 300-308): the
  transaction hash, or a raised exception caught by the handler at line 356. -/
  sendOutcome : Except String String
  /-- `tx_receipt.status == 1` (line 314). -/
  receiptStatus : Bool
  /-- Token id extracted from the receipt logs (lines 317-336). -/
  tokenIdFromLogs : Option ℤ

/-- `check_if_has_badge` (`contract_interaction.py` lines 151-168): return
the contract call's boolean, defaulting to `True` when the call raises, to
prevent accidental mints on error. -/
def check_if_has_badge (call : Except String Bool) : Bool :=
  match call with
  | .ok b => b
  | .error _ => true

/-- `mint_reputation_badge` (`contract_interaction.py` lines 257-358):
configuration check, recipient checksum, badge-existence pre-check, metadata
publication, transaction submission, receipt inspection. Returns the result
dict together with the trace of external actions performed. -/
def mint_reputation_badge (env : MintEnv) : MintResult × List MintEvent :=
  if env.pinataConfigured = false then
    ({ success := false, message := "IPFS service is not configured. Cannot mint."
       txHash := none, tokenId := none }, [])
  else if env.recipientValid = false then
    ({ success := false, message := "Invalid recipient address"
       txHash := none, tokenId := none }, [])
  else if check_if_has_badge env.hasBadgeCall then
    ({ success := false, message := "Recipient already has a badge."
       txHash := none, tokenId := none }, [])
  else
    match env.pinResult with
    | none =>
      ({ success := false, message := "Failed to upload metadata to IPFS."
         txHash := none, tokenId := none }, [.publishMetadata])
    | some _ =>
      match env.sendOutcome with
      | .error e =>
        ({ success := false, message := "An error occurred: " ++ e
           txHash := none, tokenId := none }, [.publishMetadata, .submitTransaction])
      | .ok txHash =>
        if env.receiptStatus then
          ({ success := true, message := "Badge minted successfully!"
             txHash := some txHash, tokenId := env.tokenIdFromLogs },
           [.publishMetadata, .submitTransaction])
        else
          ({ success := false, message := "Transaction failed."
             txHash := some txHash, tokenId := none },
           [.publishMetadata, .submitTransaction])

/-! Helper lemmas about `pyRound`. -/

theorem pyRound_le (q : ℚ) : (pyRound q : ℚ) ≤ q + 1/2 := by
  unfold pyRound
  dsimp only
  have h1 := Int.floor_le q
  have h2 := Int.lt_floor_add_one q
  split_ifs with ha hb hc <;> simp only [not_lt] at * <;> push_cast <;> linarith

theorem le_pyRound (q : ℚ) : q - 1/2 ≤ (pyRound q : ℚ) := by
  unfold pyRound
  dsimp only
  have h1 := Int.floor_le q
  have h2 := Int.lt_floor_add_one q
  split_ifs with ha hb hc <;> simp only [not_lt] at * <;> push_cast <;> linarith

theorem pyRound_mono {p q : ℚ} (h : p ≤ q) : pyRound p ≤ pyRound q := by
  by_contra hlt
  push_neg at hlt
  have h0 : pyRound q + 1 ≤ pyRound p := hlt
  have h1 : (pyRound q : ℚ) + 1 ≤ (pyRound p : ℚ) := by exact_mod_cast h0
  have h2 := pyRound_le p
  have h3 := le_pyRound q
  have hqp : q ≤ p := by linarith
  have heq : p = q := le_antisymm h hqp
  subst heq
  exact absurd hlt (lt_irrefl _)

/-- Monotonicity of the linear interpolation term `a / d * w` in its
numerator, for a positive denominator and non-negative weight. -/
theorem interp_mono {a b d w : ℚ} (h : a ≤ b) (hd : 0 < d) (hw : 0 ≤ w) :
    a / d * w ≤ b / d * w :=
  mul_le_mul_of_nonneg_right ((div_le_div_iff_of_pos_right hd).mpr h) hw

/-- C1: for ordered thresholds T1<T2<T3<T4 the scorer assigns exactly one of
the five categories by interval: count<T1 is Newcomer, T1≤count<T2 Explorer,
T2≤count<T3 Contributor, T3≤count<T4 Veteran, count≥T4 Legend; each boundary
value belongs to the upper category (T1−1 is Newcomer, T1 is Explorer, and
symmetrically at T2, T3, T4). -/
theorem categorize_thresholds (t : Thresholds)
    (h0 : 0 < t.minExplorer) (h1 : t.minExplorer < t.minContributor)
    (h2 : t.minContributor < t.minVeteran) (h3 : t.minVeteran < t.minLegend) :
    (∀ c : ℕ, c < t.minExplorer → categorize t c = Category.Newcomer) ∧
    (∀ c : ℕ, t.minExplorer ≤ c → c < t.minContributor → categorize t c = Category.Explorer) ∧
    (∀ c : ℕ, t.minContributor ≤ c → c < t.minVeteran → categorize t c = Category.Contributor) ∧
    (∀ c : ℕ, t.minVeteran ≤ c → c < t.minLegend → categorize t c = Category.Veteran) ∧
    (∀ c : ℕ, t.minLegend ≤ c → categorize t c = Category.Legend) ∧
    categorize t (t.minExplorer - 1) = Category.Newcomer ∧
    categorize t t.minExplorer = Category.Explorer ∧
    categorize t (t.minContributor - 1) = Category.Explorer ∧
    categorize t t.minContributor = Category.Contributor ∧
    categorize t (t.minVeteran - 1) = Category.Contributor ∧
    categorize t t.minVeteran = Category.Veteran ∧
    categorize t (t.minLegend - 1) = Category.Veteran ∧
    categorize t t.minLegend = Category.Legend := by
  refine ⟨fun c hc => ?_, fun c hc hc2 => ?_, fun c hc hc2 => ?_, fun c hc hc2 => ?_,
    fun c hc => ?_, ?_, ?_, ?_, ?_, ?_, ?_, ?_, ?_⟩ <;>
  · unfold categorize
    split_ifs <;> first | rfl | omega

/-- Witness for `categorize_thresholds` at the default thresholds
10/50/200/1000, checking the first boundary pair. -/
theorem categorize_thresholds_witness :
    (0 < defaultThresholds.minExplorer ∧
      defaultThresholds.minExplorer < defaultThresholds.minContributor ∧
      defaultThresholds.minContributor < defaultThresholds.minVeteran ∧
      defaultThresholds.minVeteran < defaultThresholds.minLegend) ∧
    categorize defaultThresholds 9 = Category.Newcomer ∧
    categorize defaultThresholds 10 = Category.Explorer :=
  ⟨⟨by decide, by decide, by decide, by decide⟩,
   (categorize_thresholds defaultThresholds (by decide) (by decide) (by decide)
      (by decide)).1 9 (by decide),
   (categorize_thresholds defaultThresholds (by decide) (by decide) (by decide)
      (by decide)).2.1 10 (by decide) (by decide)⟩

/-- C2: for every threshold configuration and every non-negative transaction
count, the score is an integer in [0,100] (the final score is defensively
clamped to that range). -/
theorem score_in_range (t : Thresholds) (c : ℕ) :
    0 ≤ scoreOf t c ∧ scoreOf t c ≤ 100 := by
  have h : ∀ s : ℤ, 0 ≤ max 0 (min 100 s) ∧ max 0 (min 100 s) ≤ 100 := fun s => by omega
  unfold scoreOf
  exact h _

/-- C3: concrete results under the default thresholds 10/50/200/1000:
count 0 is a Newcomer with score 10; count 9 a Newcomer with score 18
(which settles the spec's "18 or 19"); count 10 an Explorer with score 30;
count 44 an Explorer with score 46 (the exact value of the spec's "≈44");
count 1000 a Legend with score 95. -/
theorem concrete_cases :
    categorize defaultThresholds 0 = Category.Newcomer ∧
    scoreOf defaultThresholds 0 = 10 ∧
    categorize defaultThresholds 9 = Category.Newcomer ∧
    (scoreOf defaultThresholds 9 = 18 ∨ scoreOf defaultThresholds 9 = 19) ∧
    scoreOf defaultThresholds 9 = 18 ∧
    categorize defaultThresholds 10 = Category.Explorer ∧
    scoreOf defaultThresholds 10 = 30 ∧
    categorize defaultThresholds 44 = Category.Explorer ∧
    scoreOf defaultThresholds 44 = 46 ∧
    categorize defaultThresholds 1000 = Category.Legend ∧
    scoreOf defaultThresholds 1000 = 95 := by
  have e0 : scoreOf defaultThresholds 0 = 10 := by
    unfold scoreOf categorize defaultThresholds
    norm_num [pyRound, REPUTATION_LEVELS]
  have e9 : scoreOf defaultThresholds 9 = 18 := by
    unfold scoreOf categorize defaultThresholds
    norm_num [pyRound, REPUTATION_LEVELS]
  have e10 : scoreOf defaultThresholds 10 = 30 := by
    unfold scoreOf categorize defaultThresholds
    norm_num [pyRound, REPUTATION_LEVELS]
  have e44 : scoreOf defaultThresholds 44 = 46 := by
    unfold scoreOf categorize defaultThresholds
    norm_num [pyRound, REPUTATION_LEVELS]
  have e1000 : scoreOf defaultThresholds 1000 = 95 := by
    unfold scoreOf categorize defaultThresholds
    norm_num [pyRound, REPUTATION_LEVELS]
  exact ⟨by decide, e0, by decide, Or.inl e9, e9, by decide, e10, by decide, e44,
    by decide, e1000⟩

/-- C5: every count at or above the Legend threshold is categorized Legend
with score exactly the Legend base score 95 (no upward scaling), which does
not exceed 100. -/
theorem legend_score_fixed (t : Thresholds)
    (h1 : t.minExplorer < t.minContributor)
    (h2 : t.minContributor < t.minVeteran) (h3 : t.minVeteran < t.minLegend)
    (c : ℕ) (h : t.minLegend ≤ c) :
    categorize t c = Category.Legend ∧
    scoreOf t c = REPUTATION_LEVELS Category.Legend ∧
    scoreOf t c = 95 ∧ scoreOf t c ≤ 100 := by
  have hK : categorize t c = Category.Legend := by
    unfold categorize
    split_ifs <;> first | rfl | omega
  have hs : scoreOf t c = 95 := by
    unfold scoreOf
    rw [hK]
    rfl
  exact ⟨hK, by rw [hs]; rfl, hs, by rw [hs]; norm_num⟩

/-- Witness for `legend_score_fixed` at the default thresholds with count
1000. -/
theorem legend_score_fixed_witness :
    (defaultThresholds.minExplorer < defaultThresholds.minContributor ∧
      defaultThresholds.minContributor < defaultThresholds.minVeteran ∧
      defaultThresholds.minVeteran < defaultThresholds.minLegend ∧
      defaultThresholds.minLegend ≤ 1000) ∧
    categorize defaultThresholds 1000 = Category.Legend ∧
    scoreOf defaultThresholds 1000 = 95 :=
  ⟨⟨by decide, by decide, by decide, by decide⟩,
   (legend_score_fixed defaultThresholds (by decide) (by decide)
      (by decide) 1000 (by decide)).1,
   (legend_score_fixed defaultThresholds (by decide) (by decide)
      (by decide) 1000 (by decide)).2.2.1⟩

/-- C6: scoring is a pure, deterministic function of the transaction count
and the configured thresholds: two invocations with the same count agree on
the returned category, score and message, whatever the address label and
whatever LLM client happens to be configured. -/
theorem simulate_deterministic (t : Thresholds) (cl1 cl2 : Option LLMCall)
    (tx1 tx2 : ℕ) (a1 a2 : String) (h : tx1 = tx2) :
    (simulate_ai_reputation_score t cl1 tx1 a1).category =
      (simulate_ai_reputation_score t cl2 tx2 a2).category ∧
    (simulate_ai_reputation_score t cl1 tx1 a1).score =
      (simulate_ai_reputation_score t cl2 tx2 a2).score ∧
    (simulate_ai_reputation_score t cl1 tx1 a1).message =
      (simulate_ai_reputation_score t cl2 tx2 a2).message := by
  subst h
  exact ⟨rfl, rfl, rfl⟩

/-- Witness for `simulate_deterministic`: count 7 under two different
clients and address labels. -/
theorem simulate_deterministic_witness :
    (7 : ℕ) = 7 ∧
    (simulate_ai_reputation_score defaultThresholds none 7 "0xaa").category =
      (simulate_ai_reputation_score defaultThresholds
        (some fun _ _ _ => Except.ok "nice wallet") 7 "0xbb").category ∧
    (simulate_ai_reputation_score defaultThresholds none 7 "0xaa").score =
      (simulate_ai_reputation_score defaultThresholds
        (some fun _ _ _ => Except.ok "nice wallet") 7 "0xbb").score :=
  ⟨rfl,
   (simulate_deterministic defaultThresholds none
      (some fun _ _ _ => Except.ok "nice wallet") 7 7 "0xaa" "0xbb" rfl).1,
   (simulate_deterministic defaultThresholds none
      (some fun _ _ _ => Except.ok "nice wallet") 7 7 "0xaa" "0xbb" rfl).2.1⟩

/-- C4: for ordered thresholds and counts c1 ≤ c2, the category tier is
monotonically non-decreasing in the count, and whenever the two counts fall
in the same category the score is non-decreasing as well. -/
theorem score_monotone (t : Thresholds)
    (h0 : 0 < t.minExplorer) (h1 : t.minExplorer < t.minContributor)
    (h2 : t.minContributor < t.minVeteran) (h3 : t.minVeteran < t.minLegend)
    (c1 c2 : ℕ) (hc : c1 ≤ c2) :
    (categorize t c1).tier ≤ (categorize t c2).tier ∧
    (categorize t c1 = categorize t c2 → scoreOf t c1 ≤ scoreOf t c2) := by
  constructor
  · unfold categorize
    split_ifs <;> simp only [Category.tier] <;> omega
  · intro heq
    have hcast : (c1 : ℚ) ≤ (c2 : ℚ) := by exact_mod_cast hc
    cases hK : categorize t c1 with
    | Newcomer =>
      have hK2 : categorize t c2 = Category.Newcomer := by rw [← heq]; exact hK
      have hT : (0:ℚ) < (t.minExplorer : ℚ) := by exact_mod_cast h0
      have hr := pyRound_mono (interp_mono hcast hT (by norm_num : (0:ℚ) ≤ 9))
      unfold scoreOf
      rw [hK, hK2]
      dsimp only
      simp only [REPUTATION_LEVELS]
      omega
    | Explorer =>
      have hK2 : categorize t c2 = Category.Explorer := by rw [← heq]; exact hK
      have hT : (0:ℚ) < (t.minContributor : ℚ) - (t.minExplorer : ℚ) := by
        have : (t.minExplorer : ℚ) < (t.minContributor : ℚ) := by exact_mod_cast h1
        linarith
      have hsub : (c1:ℚ) - (t.minExplorer:ℚ) ≤ (c2:ℚ) - (t.minExplorer:ℚ) := by linarith
      have hr := pyRound_mono (interp_mono hsub hT (by norm_num : (0:ℚ) ≤ 19))
      unfold scoreOf
      rw [hK, hK2]
      dsimp only
      simp only [REPUTATION_LEVELS]
      omega
    | Contributor =>
      have hK2 : categorize t c2 = Category.Contributor := by rw [← heq]; exact hK
      have hT : (0:ℚ) < (t.minVeteran : ℚ) - (t.minContributor : ℚ) := by
        have : (t.minContributor : ℚ) < (t.minVeteran : ℚ) := by exact_mod_cast h2
        linarith
      have hsub : (c1:ℚ) - (t.minContributor:ℚ) ≤ (c2:ℚ) - (t.minContributor:ℚ) := by linarith
      have hr := pyRound_mono (interp_mono hsub hT (by norm_num : (0:ℚ) ≤ 19))
      unfold scoreOf
      rw [hK, hK2]
      dsimp only
      simp only [REPUTATION_LEVELS]
      omega
    | Veteran =>
      have hK2 : categorize t c2 = Category.Veteran := by rw [← heq]; exact hK
      have hT : (0:ℚ) < (t.minLegend : ℚ) - (t.minVeteran : ℚ) := by
        have : (t.minVeteran : ℚ) < (t.minLegend : ℚ) := by exact_mod_cast h3
        linarith
      have hsub : (c1:ℚ) - (t.minVeteran:ℚ) ≤ (c2:ℚ) - (t.minVeteran:ℚ) := by linarith
      have hr := pyRound_mono (interp_mono hsub hT (by norm_num : (0:ℚ) ≤ 9))
      unfold scoreOf
      rw [hK, hK2]
      dsimp only
      simp only [REPUTATION_LEVELS]
      omega
    | Legend =>
      have hK2 : categorize t c2 = Category.Legend := by rw [← heq]; exact hK
      unfold scoreOf
      rw [hK, hK2]

/-- Witness for `score_monotone` at the default thresholds with counts 3
and 7 (both Newcomers). -/
theorem score_monotone_witness :
    (0 < defaultThresholds.minExplorer ∧
      defaultThresholds.minExplorer < defaultThresholds.minContributor ∧
      defaultThresholds.minContributor < defaultThresholds.minVeteran ∧
      defaultThresholds.minVeteran < defaultThresholds.minLegend ∧
      (3:ℕ) ≤ 7) ∧
    (categorize defaultThresholds 3).tier ≤ (categorize defaultThresholds 7).tier ∧
    (categorize defaultThresholds 3 = categorize defaultThresholds 7 →
      scoreOf defaultThresholds 3 ≤ scoreOf defaultThresholds 7) :=
  ⟨⟨by decide, by decide, by decide, by decide, by decide⟩,
   (score_monotone defaultThresholds (by decide) (by decide) (by decide)
      (by decide) 3 7 (by decide)).1,
   (score_monotone defaultThresholds (by decide) (by decide) (by decide)
      (by decide) 3 7 (by decide)).2⟩

/-- C7: for any non-degenerate threshold configuration (strictly increasing,
first threshold positive — the defaults qualify), the scorer cannot fail:
the embedding with Python's only possible in-function exception
(`ZeroDivisionError` in the scaling step) made explicit always returns `.ok`
of the normal result, for every count, address and LLM client. -/
theorem simulate_never_fails (t : Thresholds)
    (h0 : 0 < t.minExplorer) (h1 : t.minExplorer < t.minContributor)
    (h2 : t.minContributor < t.minVeteran) (h3 : t.minVeteran < t.minLegend)
    (client : Option LLMCall) (tx : ℕ) (address : String) :
    simulateE t client tx address =
      Except.ok (simulate_ai_reputation_score t client tx address) := by
  have e1 : (t.minExplorer : ℚ) ≠ 0 := by
    have : (0:ℚ) < (t.minExplorer : ℚ) := by exact_mod_cast h0
    exact this.ne'
  have e2 : (t.minContributor : ℚ) - (t.minExplorer : ℚ) ≠ 0 := by
    have : (t.minExplorer : ℚ) < (t.minContributor : ℚ) := by exact_mod_cast h1
    exact sub_ne_zero.mpr this.ne'
  have e3 : (t.minVeteran : ℚ) - (t.minContributor : ℚ) ≠ 0 := by
    have : (t.minContributor : ℚ) < (t.minVeteran : ℚ) := by exact_mod_cast h2
    exact sub_ne_zero.mpr this.ne'
  have e4 : (t.minLegend : ℚ) - (t.minVeteran : ℚ) ≠ 0 := by
    have : (t.minVeteran : ℚ) < (t.minLegend : ℚ) := by exact_mod_cast h3
    exact sub_ne_zero.mpr this.ne'
  have hs : scoreOfE t tx = Except.ok (scoreOf t tx) := by
    unfold scoreOfE scoreOf
    cases categorize t tx <;> dsimp only <;>
      first
      | rw [if_neg e1]
      | rw [if_neg e2]
      | rw [if_neg e3]
      | rw [if_neg e4]
  unfold simulateE
  rw [hs]
  rfl

/-- Witness for `simulate_never_fails` at the default thresholds, count 5,
no LLM client. -/
theorem simulate_never_fails_witness :
    (0 < defaultThresholds.minExplorer ∧
      defaultThresholds.minExplorer < defaultThresholds.minContributor ∧
      defaultThresholds.minContributor < defaultThresholds.minVeteran ∧
      defaultThresholds.minVeteran < defaultThresholds.minLegend) ∧
    simulateE defaultThresholds none 5 "0xdead" =
      Except.ok (simulate_ai_reputation_score defaultThresholds none 5 "0xdead") :=
  ⟨⟨by decide, by decide, by decide, by decide⟩,
   simulate_never_fails defaultThresholds (by decide) (by decide) (by decide)
     (by decide) none 5 "0xdead"⟩

/-- C8: when the badge-existence pre-check reports an existing badge, the
mint aborts before publishing metadata or submitting any transaction (empty
event trace) and returns the failure "Recipient already has a badge."; and,
on any request, a successful mint is only possible when the pre-check
reported no badge. -/
theorem mint_aborts_on_existing_badge (env : MintEnv)
    (hp : env.pinataConfigured = true) (hv : env.recipientValid = true)
    (hb : check_if_has_badge env.hasBadgeCall = true) :
    mint_reputation_badge env =
      ({ success := false, message := "Recipient already has a badge."
         txHash := none, tokenId := none }, []) ∧
    (∀ env2 : MintEnv, (mint_reputation_badge env2).1.success = true →
      check_if_has_badge env2.hasBadgeCall = false) := by
  constructor
  · simp [mint_reputation_badge, hp, hv, hb]
  · intro env2 hsucc
    unfold mint_reputation_badge at hsucc
    split_ifs at hsucc with hP hV hB hR <;> simpa using hB

/-- Witness for `mint_aborts_on_existing_badge`: an environment whose
`hasBadge` call returns `True`. -/
theorem mint_aborts_on_existing_badge_witness :
    ((⟨true, true, Except.ok true, none, Except.error "unreached", false, none⟩ :
        MintEnv).pinataConfigured = true ∧
      (⟨true, true, Except.ok true, none, Except.error "unreached", false, none⟩ :
        MintEnv).recipientValid = true ∧
      check_if_has_badge (⟨true, true, Except.ok true, none, Except.error "unreached",
        false, none⟩ : MintEnv).hasBadgeCall = true) ∧
    mint_reputation_badge
        (⟨true, true, Except.ok true, none, Except.error "unreached", false, none⟩ :
          MintEnv) =
      ({ success := false, message := "Recipient already has a badge."
         txHash := none, tokenId := none }, []) :=
  ⟨⟨rfl, rfl, rfl⟩,
   (mint_aborts_on_existing_badge
      (⟨true, true, Except.ok true, none, Except.error "unreached", false, none⟩ :
        MintEnv) rfl rfl rfl).1⟩

/-- C9: a failure of the rationale generator never fails the analysis: with
no client the rationale is the fixed unavailability sentence, with a raising
client it is the fixed fallback sentence, and in every case the analysis
completes with category and score exactly those of the scorer, unaffected by
the client. -/
theorem rationale_failure_harmless (t : Thresholds) (f : LLMCall) (tx : ℕ)
    (address : String) (e : String)
    (hf : f (categorize t tx) tx address = Except.error e) :
    (simulate_ai_reputation_score t (some f) tx address).rationale =
      "Could not generate AI rationale via OpenRouter at this time." ∧
    (simulate_ai_reputation_score t none tx address).rationale =
      "LLM rationale generation is currently unavailable." ∧
    ∀ client : Option LLMCall,
      (simulate_ai_reputation_score t client tx address).category = categorize t tx ∧
      (simulate_ai_reputation_score t client tx address).score = scoreOf t tx := by
  refine ⟨?_, rfl, fun client => ⟨rfl, rfl⟩⟩
  simp [simulate_ai_reputation_score, generate_rationale_with_llm, hf]

/-- Witness for `rationale_failure_harmless`: a client that always raises. -/
theorem rationale_failure_harmless_witness :
    ((fun (_ : Category) (_ : ℕ) (_ : String) =>
        (Except.error "boom" : Except String String))
      (categorize defaultThresholds 3) 3 "0xcc" = Except.error "boom") ∧
    (simulate_ai_reputation_score defaultThresholds
        (some fun _ _ _ => Except.error "boom") 3 "0xcc").rationale =
      "Could not generate AI rationale via OpenRouter at this time." :=
  ⟨rfl,
   (rationale_failure_harmless defaultThresholds
      (fun _ _ _ => Except.error "boom") 3 "0xcc" "boom" rfl).1⟩

/-- C10: when the underlying `hasBadge` contract call raises, the check
reports `True` (badge assumed present), and consequently a mint request in
that situation aborts with "Recipient already has a badge." without
publishing or submitting anything. -/
theorem badge_check_fails_closed (env : MintEnv) (e : String)
    (hp : env.pinataConfigured = true) (hv : env.recipientValid = true)
    (he : env.hasBadgeCall = Except.error e) :
    check_if_has_badge env.hasBadgeCall = true ∧
    mint_reputation_badge env =
      ({ success := false, message := "Recipient already has a badge."
         txHash := none, tokenId := none }, []) := by
  have hb : check_if_has_badge env.hasBadgeCall = true := by
    rw [he]
    rfl
  refine ⟨hb, ?_⟩
  simp [mint_reputation_badge, hp, hv, hb]

/-- Witness for `badge_check_fails_closed`: an environment whose `hasBadge`
call raises. -/
theorem badge_check_fails_closed_witness :
    ((⟨true, true, Except.error "RPC timeout", some "Qm123", Except.ok "0xhash",
        true, some 1⟩ : MintEnv).pinataConfigured = true ∧
      (⟨true, true, Except.error "RPC timeout", some "Qm123", Except.ok "0xhash",
        true, some 1⟩ : MintEnv).recipientValid = true ∧
      (⟨true, true, Except.error "RPC timeout", some "Qm123", Except.ok "0xhash",
        true, some 1⟩ : MintEnv).hasBadgeCall = Except.error "RPC timeout") ∧
    check_if_has_badge
        (⟨true, true, Except.error "RPC timeout", some "Qm123", Except.ok "0xhash",
          true, some 1⟩ : MintEnv).hasBadgeCall = true ∧
    mint_reputation_badge
        (⟨true, true, Except.error "RPC timeout", some "Qm123", Except.ok "0xhash",
          true, some 1⟩ : MintEnv) =
      ({ success := false, message := "Recipient already has a badge."
         txHash := none, tokenId := none }, []) :=
  ⟨⟨rfl, rfl, rfl⟩, badge_check_fails_closed _ "RPC timeout" rfl rfl rfl⟩

end WalletReputation
